import Mathlib

set_option autoImplicit false

/- Shallow embedding of the ODOT-Drainage-Tables pipeline: the table parser
   (src/parser.py) and the two sheet formatters (src/formatter_da.py,
   src/formatter_inlet.py).

   A spreadsheet cell value is `Value`: a null cell, a string, or a number.
   Numeric cell values are modeled as integers; no claim below depends on
   fractional arithmetic, only on zero tests and addition, which integers
   represent faithfully.  Python records (the dicts built by the parser) are
   modeled as structures whose fields are `Option Value`: `Option.none` means
   the key is absent from the dict (its header phrase matched no column),
   while `some Value.none` means the key is present and holds Python `None`.
   Worksheet styling (fonts, borders, widths, merges) carries no behavioral
   contract and is not modeled; a built sheet is its list of data rows, each
   a row number paired with (column number, value) cells in write order. -/

inductive Value where
  | none
  | str (s : String)
  | num (n : Int)
  deriving DecidableEq

/-- Python truthiness of a cell value (`if h:`, `if outflow:`, `not description`). -/
def truthy : Value → Bool
  | .none => false
  | .str s => if s = "" then false else true
  | .num n => if n = 0 then false else true

/-- Python `str(...)` applied to a cell value. -/
def pyStr : Value → String
  | .none => "None"
  | .str s => s
  | .num n => toString n

/-- `record.get(key)`: an absent key reads as Python `None`. -/
def getOpt : Option Value → Value
  | Option.none => Value.none
  | some v => v

/-- Python `str.strip()` on the character list: drop whitespace from the
    front, then from the back (by reversing). -/
def stripChars (l : List Char) : List Char :=
  ((l.dropWhile Char.isWhitespace).reverse.dropWhile Char.isWhitespace).reverse

/-- Python `str.strip()`. -/
def pyStrip (s : String) : String :=
  String.mk (stripChars s.data)

/-- Python `needle in hay` on character lists: `needle` occurs contiguously. -/
def subInfixL (needle : List Char) : List Char → Bool
  | [] => needle.isEmpty
  | c :: rest => needle.isPrefixOf (c :: rest) || subInfixL needle rest

/-- Python `needle in hay` on strings. -/
def strContains (hay needle : String) : Bool :=
  subInfixL needle.data hay.data

/-- Python `str.upper()`, character by character (ASCII letters, as
    `Char.toUpper` provides). -/
def pyUpper (s : String) : String :=
  String.mk (s.data.map Char.toUpper)

/-- Inner loop of `_find_column` (src/parser.py lines 14-18): does some target
    phrase occur in the upper-cased header cell? -/
def cellMatches (target_phrases : List String) (h : String) : Bool :=
  let h_upper := pyUpper h
  target_phrases.any (fun phrase => strContains h_upper phrase)

/-- The `for i, h in enumerate(header)` loop of `_find_column`, carrying the
    running cell index. -/
def findColFrom (target_phrases : List String) (i : Nat) : List String → Option Nat
  | [] => Option.none
  | h :: rest =>
    if cellMatches target_phrases h then some i
    else findColFrom target_phrases (i + 1) rest

/-- `_find_column(header, target_phrases)` (src/parser.py lines 9-19). -/
def find_column (header target_phrases : List String) : Option Nat :=
  findColFrom target_phrases 0 header

/-- One drainage-area record (dict) built by `parse_da_summary`. -/
structure DaRecord where
  designation : Option Value := Option.none
  outflow_structure : Option Value := Option.none
  area_acres : Option Value := Option.none
  tc_min : Option Value := Option.none
  runoff_coeff : Option Value := Option.none
  intensity : Option Value := Option.none
  flow_cfs : Option Value := Option.none
  deriving DecidableEq

/-- One inlet record (dict) built by `parse_inlets`. -/
structure InletRecord where
  structure_no : Option Value := Option.none
  alignment : Option Value := Option.none
  station : Option Value := Option.none
  offset : Option Value := Option.none
  structure_type : Option Value := Option.none
  description : Option Value := Option.none
  elevation_rim : Option Value := Option.none
  flow_captured : Option Value := Option.none
  flow_bypassed_rational : Option Value := Option.none
  flow_total_bypassed : Option Value := Option.none
  capture_efficiency : Option Value := Option.none
  max_spread : Option Value := Option.none
  hgl_out : Option Value := Option.none
  egl_out : Option Value := Option.none
  bypass_target : Option Value := Option.none
  deriving DecidableEq

/-- The resolved `col_map` of `parse_da_summary` (src/parser.py lines 48-59);
    a `none` entry is a key removed because no phrase matched. -/
structure DaColMap where
  designation : Option Nat
  outflow_structure : Option Nat
  area_acres : Option Nat
  tc_min : Option Nat
  runoff_coeff : Option Nat
  intensity : Option Nat
  flow_cfs : Option Nat

/-- The resolved `col_map` of `parse_inlets` (src/parser.py lines 93-111). -/
structure InletColMap where
  structure_no : Option Nat
  alignment : Option Nat
  station : Option Nat
  offset : Option Nat
  structure_type : Option Nat
  description : Option Nat
  elevation_rim : Option Nat
  flow_captured : Option Nat
  flow_bypassed_rational : Option Nat
  flow_total_bypassed : Option Nat
  capture_efficiency : Option Nat
  max_spread : Option Nat
  hgl_out : Option Nat
  egl_out : Option Nat
  bypass_target : Option Nat

/-- `str(h).strip() if h else ""` (src/parser.py lines 45 and 91). -/
def headerCell (h : Value) : String :=
  if truthy h then pyStrip (pyStr h) else ""

/-- Column phrase table of `parse_da_summary` (src/parser.py lines 48-56). -/
def daColMapOf (header : List String) : DaColMap :=
  { designation := find_column header ["DRAINAGE AREA DESIGNATION"]
    outflow_structure := find_column header ["OUTFLOW STRUCTURE"]
    area_acres := find_column header ["DRAINAGE AREA (ACRE", "DRAINAGE AREA(ACRE"]
    tc_min := find_column header ["TIME OF CONCENTRATION"]
    runoff_coeff := find_column header ["RUNOFF COEFFICIENT"]
    intensity := find_column header ["CATCHMENT INTENSITY", "INTENSITY"]
    flow_cfs := find_column header ["CATCHMENT RATIONAL FLOW", "RATIONAL FLOW"] }

/-- Column phrase table of `parse_inlets` (src/parser.py lines 93-109). -/
def inletColMapOf (header : List String) : InletColMap :=
  { structure_no := find_column header ["STRUCTURE NO"]
    alignment := find_column header ["ALIGNMENT"]
    station := find_column header ["STATION"]
    offset := find_column header ["OFFSET"]
    structure_type := find_column header ["STRUCTURE TYPE"]
    description := find_column header ["DESCRIPTION"]
    elevation_rim := find_column header ["ELEVATION (RIM)", "ELEVATION"]
    flow_captured := find_column header ["FLOW (CAPTURED)", "CAPTURED"]
    flow_bypassed_rational := find_column header ["BYPASSED RATIONAL"]
    flow_total_bypassed := find_column header ["TOTAL BYPASSED"]
    capture_efficiency := find_column header ["CAPTURE EFFICIENCY"]
    max_spread := find_column header ["SPREAD"]
    hgl_out := find_column header ["HYDRAULIC GRADE"]
    egl_out := find_column header ["ENERGY GRADE"]
    bypass_target := find_column header ["BYPASS TARGET"] }

/-- `row[col_idx] if col_idx < len(row) else None` (src/parser.py lines 68, 120). -/
def rowGet (row : List Value) (i : Nat) : Value :=
  row.getD i Value.none

/-- `row[0]`, the row-presence sentinel cell.  Worksheet rows are padded to
    the used range by the reader, so a blank first cell reads as null. -/
def firstCell : List Value → Value
  | [] => Value.none
  | v :: _ => v

/-- The record built for one retained row of the drainage-area table
    (src/parser.py lines 66-69). -/
def mkDaRecord (cm : DaColMap) (row : List Value) : DaRecord :=
  { designation := cm.designation.map (rowGet row)
    outflow_structure := cm.outflow_structure.map (rowGet row)
    area_acres := cm.area_acres.map (rowGet row)
    tc_min := cm.tc_min.map (rowGet row)
    runoff_coeff := cm.runoff_coeff.map (rowGet row)
    intensity := cm.intensity.map (rowGet row)
    flow_cfs := cm.flow_cfs.map (rowGet row) }

/-- The record built for one retained row of the inlet table
    (src/parser.py lines 118-121). -/
def mkInletRecord (cm : InletColMap) (row : List Value) : InletRecord :=
  { structure_no := cm.structure_no.map (rowGet row)
    alignment := cm.alignment.map (rowGet row)
    station := cm.station.map (rowGet row)
    offset := cm.offset.map (rowGet row)
    structure_type := cm.structure_type.map (rowGet row)
    description := cm.description.map (rowGet row)
    elevation_rim := cm.elevation_rim.map (rowGet row)
    flow_captured := cm.flow_captured.map (rowGet row)
    flow_bypassed_rational := cm.flow_bypassed_rational.map (rowGet row)
    flow_total_bypassed := cm.flow_total_bypassed.map (rowGet row)
    capture_efficiency := cm.capture_efficiency.map (rowGet row)
    max_spread := cm.max_spread.map (rowGet row)
    hgl_out := cm.hgl_out.map (rowGet row)
    egl_out := cm.egl_out.map (rowGet row)
    bypass_target := cm.bypass_target.map (rowGet row) }

/-- The shared data-row loop of both parsers (src/parser.py lines 61-71 and
    113-123): `if row[0] is None: continue`, else emit one record. -/
def parseBody {α : Type} (mk : List Value → α) : List (List Value) → List α
  | [] => []
  | row :: rest =>
    if firstCell row = Value.none then parseBody mk rest
    else mk row :: parseBody mk rest

/-- `parse_da_summary` on the grid of cell values read from the workbook
    (src/parser.py lines 22-73, file I/O elided): empty grid yields no
    records, otherwise row one is the header and the rest are data rows. -/
def parse_da_summary : List (List Value) → List DaRecord
  | [] => []
  | hrow :: body =>
    parseBody (mkDaRecord (daColMapOf (hrow.map headerCell))) body

/-- `parse_inlets` on the grid of cell values (src/parser.py lines 76-125). -/
def parse_inlets : List (List Value) → List InletRecord
  | [] => []
  | hrow :: body =>
    parseBody (mkInletRecord (inletColMapOf (hrow.map headerCell))) body

/-- Python `s.split(sep)` for a one-character separator, structurally on the
    character list: splitting never yields an empty piece list. -/
def splitChar (sep : Char) : List Char → List (List Char)
  | [] => [[]]
  | c :: rest =>
    let r := splitChar sep rest
    if c = sep then [] :: r
    else (c :: r.headD []) :: r.tail

/-- Python `s.split(sep)` on strings, for a one-character separator. -/
def pySplit (s : String) (sep : Char) : List String :=
  (splitChar sep s.data).map String.mk

/-- `_extract_inlet_type(description)` (src/formatter_inlet.py lines 64-77):
    guard `if not description: return ""`, then the last `"\\"`-separated
    segment (`parts[-1]`), stripped.  `pySplit` never returns an empty list,
    so the `getLastD` default is never used. -/
def extract_inlet_type (description : Value) : String :=
  if truthy description then
    pyStrip ((pySplit (pyStr description) '\\').getLastD "")
  else ""

/-- Python `offset != 0` for a cell value (a string never equals the int 0). -/
def pyNeZero : Value → Bool
  | .num n => if n = 0 then false else true
  | _ => true

/-- Python `sep.join(parts)`. -/
def pyJoin (sep : String) : List String → String
  | [] => ""
  | [x] => x
  | x :: y :: rest => x ++ sep ++ pyJoin sep (y :: rest)

/-- `_format_station_offset(station, offset)` (src/formatter_inlet.py lines
    80-87): the station part when station is not `None`, the offset part when
    offset is not `None` and `offset != 0`, joined by `", "`. -/
def format_station_offset (station offset : Value) : String :=
  let parts : List String :=
    (if station ≠ Value.none then [pyStr station] else []) ++
    (if offset ≠ Value.none ∧ pyNeZero offset = true then
      ["Offset: " ++ pyStr offset] else [])
  pyJoin ", " parts

/-- `da.get("outflow_structure", "")` (src/formatter_inlet.py line 138). -/
def outflowOf (da : DaRecord) : Value :=
  da.outflow_structure.getD (Value.str "")

/-- The `if outflow:` admission test for the link index
    (src/formatter_inlet.py line 139). -/
def passOutflow (da : DaRecord) : Bool :=
  truthy (outflowOf da)

/-- The link-index key `str(outflow).strip()` (src/formatter_inlet.py line 140). -/
def daKey (da : DaRecord) : String :=
  pyStrip (pyStr (outflowOf da))

/-- A Python dict modeled as an assoc list in insertion order; a later
    binding of a key shadows an earlier one, so `dictGet` prefers the
    later binding. -/
def dictGet {α : Type} : List (String × α) → String → Option α
  | [], _ => Option.none
  | (k, v) :: rest, key =>
    match dictGet rest key with
    | some r => some r
    | Option.none => if k = key then some v else Option.none

/-- The `da_by_outflow` dict built at src/formatter_inlet.py lines 135-140. -/
def buildIndex (da_data : List DaRecord) : List (String × DaRecord) :=
  da_data.foldl
    (fun acc da => if passOutflow da then acc ++ [(daKey da, da)] else acc) []

/-- `da_by_outflow.get(struct_no)` (src/formatter_inlet.py line 164): every
    dict key is a string, so a non-string lookup value never matches. -/
def lookupDa (idx : List (String × DaRecord)) : Value → Option DaRecord
  | Value.str s => dictGet idx s
  | _ => Option.none

/-- Python `a or b`. -/
def pyOr (a b : Value) : Value :=
  if truthy a then a else b

/-- Python `+` on cell values.  Mixed string/number addition raises in
    Python; it is modeled as a null result and is unreachable under the
    numeric hypotheses used in the theorems below. -/
def pyAdd : Value → Value → Value
  | .num a, .num b => .num (a + b)
  | .str a, .str b => .str (a ++ b)
  | _, _ => .none

/-- The sum-Q derivation (src/formatter_inlet.py lines 199-201):
    `captured = record.get("flow_captured") or 0`,
    `bypassed = record.get("flow_total_bypassed") or 0`,
    `sum_q = captured + bypassed if (captured or bypassed) else None`. -/
def sumQ (flow_captured flow_total_bypassed : Option Value) : Value :=
  let captured := pyOr (getOpt flow_captured) (Value.num 0)
  let bypassed := pyOr (getOpt flow_total_bypassed) (Value.num 0)
  if truthy (pyOr captured bypassed) then pyAdd captured bypassed else Value.none

/-- `da_record.get(field) if da_record else None`
    (src/formatter_inlet.py lines 181-189). -/
def optDaField (da : Option DaRecord) (f : DaRecord → Option Value) : Value :=
  match da with
  | some record => getOpt (f record)
  | Option.none => Value.none

/-- The data cells written for one inlet record, as (column number, value)
    pairs in source write order (src/formatter_inlet.py lines 158-212;
    column B = 2, ..., V = 22). -/
def inletRowCells (da_by_outflow : List (String × DaRecord)) (record : InletRecord) :
    List (Nat × Value) :=
  let struct_no := record.structure_no.getD (Value.str "")
  let da_record := lookupDa da_by_outflow struct_no
  [(2, struct_no),
   (3, getOpt record.alignment),
   (4, Value.str (format_station_offset (getOpt record.station) (getOpt record.offset))),
   (5, Value.str (extract_inlet_type (getOpt record.description))),
   (6, getOpt record.structure_type),
   (7, Value.none),
   (8, optDaField da_record (fun da => da.designation)),
   (9, optDaField da_record (fun da => da.area_acres)),
   (10, optDaField da_record (fun da => da.runoff_coeff)),
   (11, optDaField da_record (fun da => da.tc_min)),
   (12, optDaField da_record (fun da => da.intensity)),
   (13, getOpt record.flow_captured),
   (14, Value.none),
   (15, Value.none),
   (16, getOpt record.flow_total_bypassed),
   (17, sumQ record.flow_captured record.flow_total_bypassed),
   (18, Value.none),
   (19, getOpt record.max_spread),
   (20, getOpt record.flow_bypassed_rational),
   (21, getOpt record.bypass_target),
   (22, Value.none)]

/-- `enumerate(inlet_data, start=data_start)` with `data_start = 5`
    (src/formatter_inlet.py line 158). -/
def inletSheetRows (da_by_outflow : List (String × DaRecord)) (start : Nat) :
    List InletRecord → List (Nat × List (Nat × Value))
  | [] => []
  | record :: rest =>
    (start, inletRowCells da_by_outflow record) ::
      inletSheetRows da_by_outflow (start + 1) rest

/-- Data region of `create_inlet_sheet` (src/formatter_inlet.py lines 90-214).
    `da_data=None` and `da_data=[]` both leave the dict empty (`if da_data:`). -/
def create_inlet_sheet (inlet_data : List InletRecord)
    (da_data : Option (List DaRecord)) : List (Nat × List (Nat × Value)) :=
  let da_by_outflow :=
    match da_data with
    | some l => buildIndex l
    | Option.none => []
  inletSheetRows da_by_outflow 5 inlet_data

/-- The data cells written for one drainage-area record
    (src/formatter_da.py lines 131-156; column A = 1, E = 5, I = 9, L = 12). -/
def daRowCells (record : DaRecord) : List (Nat × Value) :=
  [(1, getOpt record.designation),
   (2, getOpt record.area_acres),
   (3, getOpt record.tc_min),
   (4, getOpt record.runoff_coeff),
   (5, getOpt record.intensity),
   (6, Value.none),
   (7, Value.none),
   (8, Value.none),
   (9, getOpt record.flow_cfs),
   (10, Value.none),
   (11, Value.none),
   (12, Value.none)]

/-- `enumerate(da_data, start=5)` (src/formatter_da.py line 131). -/
def daSheetRows (start : Nat) : List DaRecord → List (Nat × List (Nat × Value))
  | [] => []
  | record :: rest => (start, daRowCells record) :: daSheetRows (start + 1) rest

/-- Data region of `create_da_summary_sheet` (src/formatter_da.py lines 45-158). -/
def create_da_summary_sheet (da_data : List DaRecord) :
    List (Nat × List (Nat × Value)) :=
  daSheetRows 5 da_data

/-- Stated from the spec's words, for comparison with `extract_inlet_type`
    (not a source translation): the last NON-empty segment of the
    description path, trimmed. -/
def specLastNonEmptySegment (description : Value) : String :=
  if truthy description then
    pyStrip (((pySplit (pyStr description) '\\').filter
      (fun seg => decide (seg ≠ ""))).getLastD "")
  else ""

/-- An operand of the sum-Q derivation that is numeric or absent (the claim's
    domain; flow cells are numbers when present). -/
def numOrAbsent (o : Option Value) : Prop :=
  o = Option.none ∨ o = some Value.none ∨ ∃ n : Int, o = some (Value.num n)

/-- The numeric content of a sum-Q operand, an absent or null operand
    counting as 0. -/
def valNum : Option Value → Int
  | some (Value.num n) => n
  | _ => 0

/-- Concrete inlet record whose description path ends with the separator. -/
def inletC2 : InletRecord :=
  { description := some (Value.str "CI\\") }

/-- Concrete drainage-area record whose outflow string is whitespace only. -/
def daC3 : DaRecord :=
  { designation := some (Value.str "DA-1"),
    outflow_structure := some (Value.str " ") }

/-- Concrete drainage-area record linked from the inlet sheet. -/
def daC4 : DaRecord :=
  { designation := some (Value.str "DA-2"),
    outflow_structure := some (Value.str "CI-1"),
    area_acres := some (Value.num 2),
    tc_min := some (Value.num 10),
    runoff_coeff := some (Value.num 1),
    intensity := some (Value.num 9),
    flow_cfs := some (Value.num 1) }

/-- Concrete inlet record whose structure number matches `daC4` exactly. -/
def inletC4hit : InletRecord :=
  { structure_no := some (Value.str "CI-1") }

/-- Concrete inlet record whose structure number has leading whitespace. -/
def inletC4miss : InletRecord :=
  { structure_no := some (Value.str " CI-1") }

/-- Concrete inlet record with a captured flow and no bypassed flow. -/
def inletC5a : InletRecord :=
  { flow_captured := some (Value.num 3) }

/-- Concrete inlet record with neither flow operand present. -/
def inletC5b : InletRecord := {}

/-- Concrete inlet record with an absent station and a nonzero offset. -/
def inletC7 : InletRecord :=
  { offset := some (Value.num 5) }

/-- Concrete drainage-area record carrying one frequency of data. -/
def daC8 : DaRecord :=
  { designation := some (Value.str "DA-2"),
    intensity := some (Value.num 9),
    flow_cfs := some (Value.num 1) }

/-- Concrete drainage-area record admitted under the empty-string key. -/
def daC9 : DaRecord :=
  { designation := some (Value.str "DA-9"),
    outflow_structure := some (Value.str " ") }

/-- Concrete inlet record lacking the structure-number field. -/
def inletC9 : InletRecord := {}

/-- The data-row loop keeps exactly the rows whose first cell is not null,
    one record per kept row, in input order. -/
theorem parseBody_eq {α : Type} (mk : List Value → α) (body : List (List Value)) :
    parseBody mk body
      = (body.filter (fun r => !decide (firstCell r = Value.none))).map mk := by
  induction body with
  | nil => rfl
  | cons row rest ih =>
    by_cases h : firstCell row = Value.none <;>
      simp [parseBody, List.filter_cons, h, ih]

/-- Unfolding the `buildIndex` fold: the dict binds, in input order, one
    entry per record passing the `if outflow:` test. -/
theorem buildIndex_foldl (da_data : List DaRecord) :
    ∀ acc : List (String × DaRecord),
      da_data.foldl
        (fun acc da => if passOutflow da then acc ++ [(daKey da, da)] else acc) acc
        = acc ++ (da_data.filter passOutflow).map (fun da => (daKey da, da)) := by
  induction da_data with
  | nil => intro acc; simp
  | cons da rest ih =>
    intro acc
    by_cases h : passOutflow da <;>
      simp [List.filter_cons, h, ih, List.append_assoc]

theorem buildIndex_eq (da_data : List DaRecord) :
    buildIndex da_data
      = (da_data.filter passOutflow).map (fun da => (daKey da, da)) := by
  simpa using buildIndex_foldl da_data []

/-- Unfolding `dictGet` one binding at a time. -/
theorem dictGet_cons {α : Type} (k : String) (v : α) (rest : List (String × α))
    (key : String) :
    dictGet ((k, v) :: rest) key
      = match dictGet rest key with
        | some r => some r
        | Option.none => if k = key then some v else Option.none := rfl

/-- Reading a dict keyed by `key` over a filtered record list finds the
    last record (in input order) that passes the filter and bears the key. -/
theorem dictGet_filter_keyed (p : DaRecord → Bool) (key : DaRecord → String)
    (l : List DaRecord) (k : String) :
    dictGet ((l.filter p).map (fun da => (key da, da))) k
      = l.reverse.find? (fun da => p da && decide (key da = k)) := by
  induction l with
  | nil => rfl
  | cons da rest ih =>
    rw [List.reverse_cons, List.find?_append]
    by_cases hp : p da
    · rw [List.filter_cons_of_pos hp, List.map_cons, dictGet_cons, ih]
      cases hfind : rest.reverse.find? (fun da => p da && decide (key da = k)) with
      | none =>
        by_cases hk : key da = k <;> simp [List.find?, hp, hk]
      | some r => simp
    · rw [List.filter_cons_of_neg hp, ih]
      cases hfind : rest.reverse.find? (fun da => p da && decide (key da = k)) with
      | none => simp [List.find?, hp]
      | some r => simp

/-- Looking up a key in the link index finds the last drainage-area record
    (in input order) that passed the `if outflow:` test and whose stripped
    outflow string is the key. -/
theorem dictGet_buildIndex (da_data : List DaRecord) (k : String) :
    dictGet (buildIndex da_data) k
      = da_data.reverse.find? (fun da => passOutflow da && decide (daKey da = k)) := by
  rw [buildIndex_eq, dictGet_filter_keyed]

/-- `dropWhile` removes only a prefix, so when its result is nonempty it
    still ends where the whole list ends. -/
theorem getLast?_dropWhile_of_ne_nil {α : Type} (p : α → Bool) :
    ∀ l : List α, l.dropWhile p ≠ [] → (l.dropWhile p).getLast? = l.getLast? := by
  intro l
  induction l with
  | nil => intro h; simp at h
  | cons b t ih =>
    intro h
    by_cases hb : p b
    · rw [List.dropWhile_cons_of_pos hb] at h ⊢
      cases t with
      | nil => simp at h
      | cons c t2 =>
        rw [List.getLast?_cons_cons]
        exact ih h
    · rw [List.dropWhile_cons_of_neg hb]

/-- A stripped string never starts with a whitespace character. -/
theorem head?_stripChars (l : List Char) (a : Char)
    (h : (stripChars l).head? = some a) : a.isWhitespace = false := by
  unfold stripChars at h
  rw [List.head?_reverse] at h
  have hne :
      List.dropWhile Char.isWhitespace (l.dropWhile Char.isWhitespace).reverse ≠ [] := by
    intro hnil
    rw [hnil] at h
    simp at h
  rw [getLast?_dropWhile_of_ne_nil _ _ hne, List.getLast?_reverse] at h
  simpa [h] using List.head?_dropWhile_not Char.isWhitespace l

/-- A stripped string never ends with a whitespace character. -/
theorem getLast?_stripChars (l : List Char) (a : Char)
    (h : (stripChars l).getLast? = some a) : a.isWhitespace = false := by
  unfold stripChars at h
  rw [List.getLast?_reverse] at h
  simpa [h] using
    List.head?_dropWhile_not Char.isWhitespace (l.dropWhile Char.isWhitespace).reverse

/-- Every key of the link index is a stripped string, so a lookup string
    bearing leading or trailing whitespace misses every entry. -/
theorem dictGet_buildIndex_ws_miss (da_data : List DaRecord) (s : String)
    (hws : (s.data.head?.any Char.isWhitespace
            || s.data.getLast?.any Char.isWhitespace) = true) :
    dictGet (buildIndex da_data) s = Option.none := by
  rw [dictGet_buildIndex]
  cases hfind :
      da_data.reverse.find? (fun da => passOutflow da && decide (daKey da = s)) with
  | none => rfl
  | some da =>
    exfalso
    have hp := List.find?_some hfind
    rw [Bool.and_eq_true] at hp
    have hk : daKey da = s := of_decide_eq_true hp.2
    have hdata : s.data = stripChars (pyStr (outflowOf da)).data := by
      rw [← hk]; rfl
    rw [hdata] at hws
    rcases Bool.or_eq_true_iff.mp hws with h1 | h1
    · cases hh : (stripChars (pyStr (outflowOf da)).data).head? with
      | none => rw [hh] at h1; simp [Option.any] at h1
      | some a =>
        rw [hh] at h1
        simp only [Option.any] at h1
        rw [head?_stripChars _ _ hh] at h1
        exact Bool.false_ne_true h1
    · cases hh : (stripChars (pyStr (outflowOf da)).data).getLast? with
      | none => rw [hh] at h1; simp [Option.any] at h1
      | some a =>
        rw [hh] at h1
        simp only [Option.any] at h1
        rw [getLast?_stripChars _ _ hh] at h1
        exact Bool.false_ne_true h1

/-- Row numbering of the Drainage Area Summary data region: the i-th record
    lands in worksheet row `start + i`. -/
theorem daSheetRows_getElem? (l : List DaRecord) :
    ∀ (start i : Nat) (rec : DaRecord), l[i]? = some rec →
      (daSheetRows start l)[i]? = some (start + i, daRowCells rec) := by
  induction l with
  | nil => intro start i rec h; simp at h
  | cons r rest ih =>
    intro start i rec h
    have hcons : daSheetRows start (r :: rest)
        = (start, daRowCells r) :: daSheetRows (start + 1) rest := rfl
    cases i with
    | zero =>
      rw [List.getElem?_cons_zero] at h
      cases h
      rw [hcons, List.getElem?_cons_zero, Nat.add_zero]
    | succ i2 =>
      rw [List.getElem?_cons_succ] at h
      rw [hcons, List.getElem?_cons_succ, ih (start + 1) i2 rec h]
      have harith : start + 1 + i2 = start + (i2 + 1) := by omega
      rw [harith]

/-- The Drainage Area Summary data region has one row per record. -/
theorem daSheetRows_length (l : List DaRecord) :
    ∀ start : Nat, (daSheetRows start l).length = l.length := by
  induction l with
  | nil => intro start; rfl
  | cons r rest ih =>
    intro start
    show (daSheetRows (start + 1) rest).length + 1 = rest.length + 1
    rw [ih]

/-- Claim C1 (code bug, failing input): on the header row
    `["PIPE INTENSITY", "CATCHMENT INTENSITY"]` the intensity field's
    first-priority phrase `"CATCHMENT INTENSITY"` occurs in cell 1 only, yet
    `_find_column` returns index 0, a cell matching only the lower-priority
    phrase `"INTENSITY"`: the loop scans header cells outermost, so phrase
    priority is not honored across cells as the spec states. -/
theorem c1_phrase_priority_failing_input :
    find_column ["PIPE INTENSITY", "CATCHMENT INTENSITY"]
        ["CATCHMENT INTENSITY", "INTENSITY"] = some 0
    ∧ (daColMapOf ["PIPE INTENSITY", "CATCHMENT INTENSITY"]).intensity = some 0
    ∧ strContains (pyUpper "CATCHMENT INTENSITY") "CATCHMENT INTENSITY" = true
    ∧ strContains (pyUpper "PIPE INTENSITY") "CATCHMENT INTENSITY" = false
    ∧ strContains (pyUpper "PIPE INTENSITY") "INTENSITY" = true := by
  decide

/-- Claim C2 (counterexample): for the inlet record whose `description` is
    `"CI\\"`, the displayed inlet-type cell (column E = 5) is the empty
    string, while the last non-empty segment of the path, trimmed, is
    `"CI"`: the code takes the last segment even when it is empty. -/
theorem c2_inlet_type_cex :
    (inletRowCells [] inletC2).lookup 5 = some (Value.str "")
    ∧ specLastNonEmptySegment (Value.str "CI\\") = "CI"
    ∧ Value.str "" ≠ Value.str "CI" := by
  decide

/-- Claim C2 (amended): for every inlet record, the displayed inlet type
    (column E = 5) equals the LAST segment of `description` split on the
    backslash separator, trimmed — the empty string when the description
    ends with the separator — and an absent or empty description yields the
    empty string without error. -/
theorem c2_inlet_type_amended :
    (∀ (idx : List (String × DaRecord)) (r : InletRecord),
      (inletRowCells idx r).lookup 5
        = some (Value.str (extract_inlet_type (getOpt r.description))))
    ∧ (∀ s : String, s ≠ "" →
        extract_inlet_type (Value.str s)
          = pyStrip ((pySplit s '\\').getLastD ""))
    ∧ extract_inlet_type Value.none = ""
    ∧ extract_inlet_type (Value.str "") = "" := by
  refine ⟨fun idx r => rfl, fun s hs => ?_, rfl, rfl⟩
  simp [extract_inlet_type, truthy, pyStr, hs]

/-- Witness for `c2_inlet_type_amended` at the concrete description path
    `"Node\\CI Des 2"`. -/
theorem c2_inlet_type_amended_witness :
    ("Node\\CI Des 2" ≠ "")
    ∧ extract_inlet_type (Value.str "Node\\CI Des 2")
        = pyStrip ((pySplit "Node\\CI Des 2" '\\').getLastD "") :=
  ⟨by decide, c2_inlet_type_amended.2.1 "Node\\CI Des 2" (by decide)⟩

/-- Claim C3 (counterexample): a record whose `outflow_structure` is the
    single blank `" "` — empty after trimming — is NOT excluded from the
    link index: the `if outflow:` presence test runs before stripping, so
    the record is admitted under the empty-string key. -/
theorem c3_link_index_cex :
    passOutflow daC3 = true
    ∧ daKey daC3 = ""
    ∧ pyStrip (pyStr (Value.str " ")) = ""
    ∧ dictGet (buildIndex [daC3]) "" = some daC3 := by
  decide

/-- Claim C3 (amended): looking up key `k` in the built index finds exactly
    the LAST record in input order whose `outflow_structure` value is truthy
    before trimming (records absent or falsy are excluded — a whitespace-only
    value is admitted) and whose trimmed string rendering equals `k`;
    duplicates are therefore resolved last-writer-wins. -/
theorem c3_link_index (da_data : List DaRecord) (k : String) :
    dictGet (buildIndex da_data) k
      = da_data.reverse.find? (fun da => passOutflow da && decide (daKey da = k)) :=
  dictGet_buildIndex da_data k

/-- Claim C6: for either input table, a data row is excluded exactly when
    its first physical cell is null, independently of every other cell, and
    each retained row yields one record, in input row order. -/
theorem c6_row_sentinel (hrow : List Value) (body : List (List Value)) :
    parse_da_summary (hrow :: body)
      = (body.filter (fun r => !decide (firstCell r = Value.none))).map
          (mkDaRecord (daColMapOf (hrow.map headerCell)))
    ∧ parse_inlets (hrow :: body)
      = (body.filter (fun r => !decide (firstCell r = Value.none))).map
          (mkInletRecord (inletColMapOf (hrow.map headerCell))) :=
  ⟨parseBody_eq _ _, parseBody_eq _ _⟩

/-- Claim C10: an input with no rows at all, and an input with only a header
    row, both parse to the empty record list without error. -/
theorem c10_empty_input :
    parse_da_summary [] = [] ∧ parse_inlets [] = []
    ∧ ∀ hrow : List Value,
        parse_da_summary [hrow] = [] ∧ parse_inlets [hrow] = [] :=
  ⟨rfl, rfl, fun _ => ⟨rfl, rfl⟩⟩

/-- Claim C4: with the link index present, the inlet-side lookup key is the
    verbatim `structure_no` — a value with leading or trailing whitespace
    misses every (trimmed-keyed) index entry — and columns H-L (8-12) carry
    the looked-up record's designation, area, runoff coefficient, Tc and
    intensity on a hit, or null on a miss. -/
theorem c4_link_lookup (da_data : List DaRecord) (r : InletRecord)
    (da : Option DaRecord)
    (hda : lookupDa (buildIndex da_data) (r.structure_no.getD (Value.str "")) = da) :
    ((inletRowCells (buildIndex da_data) r).lookup 8
        = some (optDaField da (fun x => x.designation))
      ∧ (inletRowCells (buildIndex da_data) r).lookup 9
        = some (optDaField da (fun x => x.area_acres))
      ∧ (inletRowCells (buildIndex da_data) r).lookup 10
        = some (optDaField da (fun x => x.runoff_coeff))
      ∧ (inletRowCells (buildIndex da_data) r).lookup 11
        = some (optDaField da (fun x => x.tc_min))
      ∧ (inletRowCells (buildIndex da_data) r).lookup 12
        = some (optDaField da (fun x => x.intensity)))
    ∧ (∀ s : String, r.structure_no = some (Value.str s) →
        (s.data.head?.any Char.isWhitespace
          || s.data.getLast?.any Char.isWhitespace) = true →
        lookupDa (buildIndex da_data) (r.structure_no.getD (Value.str ""))
          = Option.none) := by
  subst hda
  refine ⟨⟨rfl, rfl, rfl, rfl, rfl⟩, ?_⟩
  intro s hs hws
  rw [hs]
  exact dictGet_buildIndex_ws_miss da_data s hws

/-- Witness for `c4_link_lookup`: the exact key `"CI-1"` links and fills
    column H, while the whitespace-padded key `" CI-1"` misses. -/
theorem c4_link_lookup_witness :
    (inletRowCells (buildIndex [daC4]) inletC4hit).lookup 8
      = some (Value.str "DA-2")
    ∧ lookupDa (buildIndex [daC4])
        (inletC4miss.structure_no.getD (Value.str "")) = Option.none := by
  constructor
  · have h := (c4_link_lookup [daC4] inletC4hit
      (lookupDa (buildIndex [daC4]) (inletC4hit.structure_no.getD (Value.str "")))
      rfl).1.1
    rw [h]
    decide
  · exact (c4_link_lookup [daC4] inletC4miss
      (lookupDa (buildIndex [daC4]) (inletC4miss.structure_no.getD (Value.str "")))
      rfl).2 " CI-1" rfl (by decide)

/-- On numeric-or-absent operands the sum-Q expression computes the numeric
    sum, null when both operands are absent or zero. -/
theorem sumQ_eq (o1 o2 : Option Value) (h1 : numOrAbsent o1) (h2 : numOrAbsent o2) :
    sumQ o1 o2
      = if valNum o1 = 0 ∧ valNum o2 = 0 then Value.none
        else Value.num (valNum o1 + valNum o2) := by
  have e1 : pyOr (getOpt o1) (Value.num 0) = Value.num (valNum o1) := by
    rcases h1 with h | h | ⟨a, h⟩ <;> subst h
    · rfl
    · rfl
    · by_cases ha : a = 0 <;> simp [pyOr, getOpt, truthy, valNum, ha]
  have e2 : pyOr (getOpt o2) (Value.num 0) = Value.num (valNum o2) := by
    rcases h2 with h | h | ⟨b, h⟩ <;> subst h
    · rfl
    · rfl
    · by_cases hb : b = 0 <;> simp [pyOr, getOpt, truthy, valNum, hb]
  simp only [sumQ, e1, e2]
  by_cases hv1 : valNum o1 = 0 <;> by_cases hv2 : valNum o2 = 0 <;>
    simp [pyOr, truthy, pyAdd, hv1, hv2]

/-- Claim C5: the sum-Q output cell (column Q = 17) is
    `flow_captured + flow_total_bypassed` with an absent operand counting as
    0 whenever some operand is present and nonzero, and null — not 0 — when
    both operands are absent or zero. -/
theorem c5_sum_q (idx : List (String × DaRecord)) (r : InletRecord)
    (hc : numOrAbsent r.flow_captured) (hb : numOrAbsent r.flow_total_bypassed) :
    (inletRowCells idx r).lookup 17
      = some (if valNum r.flow_captured = 0 ∧ valNum r.flow_total_bypassed = 0
              then Value.none
              else Value.num (valNum r.flow_captured + valNum r.flow_total_bypassed)) := by
  have h17 : (inletRowCells idx r).lookup 17
      = some (sumQ r.flow_captured r.flow_total_bypassed) := rfl
  rw [h17, sumQ_eq _ _ hc hb]

/-- Witness for `c5_sum_q`: captured 3 with absent bypass sums to 3; both
    operands absent yield the null cell. -/
theorem c5_sum_q_witness :
    (inletRowCells [] inletC5a).lookup 17 = some (Value.num 3)
    ∧ (inletRowCells [] inletC5b).lookup 17 = some Value.none := by
  constructor
  · have h := c5_sum_q [] inletC5a
      (Or.inr (Or.inr ⟨3, rfl⟩)) (Or.inl rfl)
    rw [h]
    decide
  · have h := c5_sum_q [] inletC5b (Or.inl rfl) (Or.inl rfl)
    rw [h]
    decide

/-- Claim C7 (counterexample): for the inlet record with an absent station
    and offset 5 the display cell (column D = 4) is `"Offset: 5"`, which
    does not contain the claimed suffix `", Offset: 5"` even though the
    offset is present and nonzero: the comma separator appears only when a
    station is also present. -/
theorem c7_offset_cex :
    (inletRowCells [] inletC7).lookup 4 = some (Value.str "Offset: 5")
    ∧ getOpt inletC7.offset ≠ Value.none
    ∧ pyNeZero (getOpt inletC7.offset) = true
    ∧ strContains "Offset: 5" ", Offset: 5" = false := by
  decide

/-- Claim C7 (amended): the display (column D = 4) carries the offset part
    `"Offset: OFFSET"` exactly when offset is present and nonzero, preceded
    by the separator `", "` exactly when station is also present; offset 0
    yields the station string alone, and both absent yield the empty
    string. -/
theorem c7_offset_amended :
    (∀ (idx : List (String × DaRecord)) (r : InletRecord),
      (inletRowCells idx r).lookup 4
        = some (Value.str
            (format_station_offset (getOpt r.station) (getOpt r.offset))))
    ∧ (∀ station offset : Value,
        format_station_offset station offset
          = if offset ≠ Value.none ∧ pyNeZero offset = true then
              (if station ≠ Value.none
               then pyStr station ++ ", " ++ ("Offset: " ++ pyStr offset)
               else "Offset: " ++ pyStr offset)
            else if station ≠ Value.none then pyStr station else "") := by
  refine ⟨fun idx r => rfl, fun station offset => ?_⟩
  by_cases h1 : station = Value.none <;>
    by_cases h2 : offset ≠ Value.none ∧ pyNeZero offset = true <;>
      simp [format_station_offset, pyJoin, h1, h2]

/-- Claim C8: the Drainage Area Summary data region has exactly one row per
    record, the i-th record in worksheet row 5 + i, with its intensity in
    the 10-year intensity column (E = 5), its flow in the 10-year peak-flow
    column (I = 9), and the 25/50/100-year columns (F-H = 6-8 and
    J-L = 10-12) null in every data row. -/
theorem c8_single_frequency (da_data : List DaRecord) :
    (create_da_summary_sheet da_data).length = da_data.length
    ∧ (∀ (i : Nat) (rec : DaRecord), da_data[i]? = some rec →
        (create_da_summary_sheet da_data)[i]? = some (5 + i, daRowCells rec))
    ∧ (∀ rec : DaRecord,
        (daRowCells rec).lookup 5 = some (getOpt rec.intensity)
        ∧ (daRowCells rec).lookup 9 = some (getOpt rec.flow_cfs)
        ∧ (daRowCells rec).lookup 6 = some Value.none
        ∧ (daRowCells rec).lookup 7 = some Value.none
        ∧ (daRowCells rec).lookup 8 = some Value.none
        ∧ (daRowCells rec).lookup 10 = some Value.none
        ∧ (daRowCells rec).lookup 11 = some Value.none
        ∧ (daRowCells rec).lookup 12 = some Value.none) :=
  ⟨daSheetRows_length da_data 5,
   fun i rec h => daSheetRows_getElem? da_data 5 i rec h,
   fun _ => ⟨rfl, rfl, rfl, rfl, rfl, rfl, rfl, rfl⟩⟩

/-- Witness for `c8_single_frequency` on a one-record input: the record
    lands in worksheet row 5 with intensity 9 in column 5, flow 1 in
    column 9, and column 6 null. -/
theorem c8_single_frequency_witness :
    (create_da_summary_sheet [daC8])[0]? = some (5, daRowCells daC8)
    ∧ (daRowCells daC8).lookup 5 = some (Value.num 9)
    ∧ (daRowCells daC8).lookup 9 = some (Value.num 1)
    ∧ (daRowCells daC8).lookup 6 = some Value.none := by
  refine ⟨(c8_single_frequency [daC8]).2.1 0 daC8 rfl, ?_, ?_, ?_⟩
  · have h := ((c8_single_frequency [daC8]).2.2 daC8).1
    rw [h]
    decide
  · have h := ((c8_single_frequency [daC8]).2.2 daC8).2.1
    rw [h]
    decide
  · exact ((c8_single_frequency [daC8]).2.2 daC8).2.2.1

/-- Claim C9: a drainage-area record whose `outflow_structure` is
    whitespace-only (truthy before trimming) is admitted to the link index
    under the empty-string key, and an inlet record lacking `structure_no`
    looks up the default key `""` — so the two are linked, the inlet's
    column H (8) receiving that record's designation. -/
theorem c9_empty_key_link (da_data : List DaRecord) (d : DaRecord)
    (r : InletRecord) (w : String)
    (hr : r.structure_no = Option.none)
    (hd : d.outflow_structure = some (Value.str w))
    (hw1 : w ≠ "")
    (hw2 : pyStrip w = "") :
    lookupDa (buildIndex (da_data ++ [d])) (r.structure_no.getD (Value.str ""))
      = some d
    ∧ (inletRowCells (buildIndex (da_data ++ [d])) r).lookup 8
      = some (getOpt d.designation) := by
  have hkey : r.structure_no.getD (Value.str "") = Value.str "" := by
    rw [hr]
    rfl
  have hpass : passOutflow d = true := by
    simp [passOutflow, outflowOf, hd, truthy, hw1]
  have hkeyd : daKey d = "" := by
    have : daKey d = pyStrip w := by
      simp [daKey, outflowOf, hd, pyStr]
    rw [this, hw2]
  have hlook : lookupDa (buildIndex (da_data ++ [d])) (Value.str "") = some d := by
    show dictGet (buildIndex (da_data ++ [d])) "" = some d
    rw [dictGet_buildIndex, List.reverse_append]
    simp [List.find?, hpass, hkeyd]
  constructor
  · rw [hkey]
    exact hlook
  · have h8 : (inletRowCells (buildIndex (da_data ++ [d])) r).lookup 8
        = some (optDaField
            (lookupDa (buildIndex (da_data ++ [d]))
              (r.structure_no.getD (Value.str "")))
            (fun x => x.designation)) := rfl
    rw [h8, hkey, hlook]
    rfl

/-- Witness for `c9_empty_key_link`: the record `daC9` (outflow `" "`) is
    found under the empty key by the inlet `inletC9` (no structure number)
    and its designation fills column H. -/
theorem c9_empty_key_link_witness :
    lookupDa (buildIndex ([] ++ [daC9])) (inletC9.structure_no.getD (Value.str ""))
      = some daC9
    ∧ (inletRowCells (buildIndex ([] ++ [daC9])) inletC9).lookup 8
      = some (Value.str "DA-9") := by
  have h := c9_empty_key_link [] daC9 inletC9 " " rfl rfl (by decide) (by decide)
  refine ⟨h.1, ?_⟩
  rw [h.2]
  rfl
